import Mathlib

/-
Shallow embedding of the core numerics of TERREMOTO/seismic-simulator
(streamlit_app.py): synthetic ground-motion generation (generar_sismo) and
the SDOF response solver (resolver_sdof), together with theorems settling
the specification claims about them.

Modelling conventions:
- IEEE doubles are modelled as rationals (every finite double is rational);
  a value that becomes non-finite (NaN from 0/0 in the normalization step)
  is modelled as `none` in an `Option` value.
- The transcendental functions used by the code (numpy exp and pi) and the
  seeded Gaussian generator (numpy random.randn after random.seed) are
  taken as abstract parameters (fexp, fpi, randn): the claims proved about
  the synthesizer hold for every instantiation, hence in particular for the
  float approximations the program computes with.
- numpy global random state is modelled explicitly as a RandState value
  threaded through the operations, so that determinism / purity claims are
  statements about state (in)dependence rather than tautologies.
- Python exceptions are modelled with Except String; the bare try/except in
  resolver_sdof corresponds to mapping the error case to `none`.
- scipy solve_ivp is an external dependency; resolver_sdof is parameterized
  over an integrator of its interface (right-hand side, t_span, y0, t_eval
  to either an exception or a result carrying states, a success flag and a
  diagnostic message).  A concrete executable model (solve_ivp_model) does
  Dormand-Prince RK45 propagation with one step per grid interval: the
  source caps the internal step at max_step = 0.01, which equals the t_eval
  grid spacing; the adaptive error controller itself (whose step factors
  involve irrational powers) always accepts such steps on the problems the
  concrete claims evaluate, and is not modelled.
-/

namespace Terremoto

/-- Fixed time step dt = 0.01 s used by both core functions. -/
def dt : ℚ := 1 / 100

/-- Number of samples of numpy arange(0, T, dt): the exact count is the
ceiling of T/dt (zero for T not positive). -/
def nSamples (T : ℚ) : ℕ := (⌈T / dt⌉ : ℤ).toNat

/-- numpy arange(0, T, dt): the grid 0, dt, 2 dt, ... with ceil(T/dt) points. -/
def arange (T : ℚ) : List ℚ := (List.range (nSamples T)).map (fun (i : ℕ) => (i : ℚ) * dt)

/-- Python max(abs(acc)): the largest absolute value of the list (0 for the
empty list, on which the Python code would instead raise; no claim touches
that case). -/
def maxAbs (l : List ℚ) : ℚ := l.foldr (fun x m => max |x| m) 0

/-- Global numpy random state: the seed the generator was last seeded with
and the position in the derived stream. -/
structure RandState where
  seed : ℕ
  pos : ℕ
deriving DecidableEq

section Synth

variable (fexp : ℚ → ℚ) (fpi : ℚ) (randn : ℕ → ℕ → ℚ)

/-- Ricker wavelet from the source: tau = t - t0, a = (pi f0 tau)^2,
value = (1 - 2 a) exp (-a). -/
def ricker (t t0 f0 : ℚ) : ℚ :=
  let tau := t - t0
  let a := (fpi * f0 * tau) ^ 2
  (1 - 2 * a) * fexp (-a)

/-- Raw synthesized signal of generar_sismo before normalization: the
five-wavelet superposition, times the Gaussian envelope, plus 0.05 times
the standard-normal noise drawn after np.random.seed(seed) (draw i of the
stream of the given seed is randn seed i). -/
def generar_raw (T : ℚ) (seed : ℕ) : List ℚ :=
  let t := arange T
  let acc := t.map (fun ti =>
    (4/5) * ricker fexp fpi ti (T/3 - 5) 1
    + (6/5) * ricker fexp fpi ti (T/3) (5/2)
    + (3/5) * ricker fexp fpi ti (T/3 + 5) 4
    + (3/10) * ricker fexp fpi ti (T/2) (6/5)
    + (2/5) * ricker fexp fpi ti (2*T/3) 3)
  let acc := List.zipWith (fun ti ai => ai * fexp (-(((ti - T/2) / (T/4)) ^ 2))) t acc
  List.zipWith (fun ai i => ai + (1/20) * randn seed i) acc (List.range t.length)

/-- generar_sismo(T, intensidad, seed): returns the time grid and the
normalized record, and the numpy global random state after the call (the
call first executes np.random.seed(seed), so the incoming state rs is
discarded).  The final line of the source is
acc = acc / max(abs(acc)) * (0.6 * intensidad); when the maximum is zero
this is a float 0/0, i.e. NaN at every sample, modelled as `none`. -/
def generar_sismo (T intensidad : ℚ) (seed : ℕ) (rs : RandState) :
    (List ℚ × List (Option ℚ)) × RandState :=
  let t := arange T
  let acc0 := generar_raw fexp fpi randn T seed
  let M := maxAbs acc0
  let acc := acc0.map (fun ai => if M = 0 then none else some (ai / M * ((3/5) * intensidad)))
  ((t, acc), ⟨seed, t.length⟩)

end Synth

/-- Result record of a scipy solve_ivp call: the states at the reported
times, the success flag and the diagnostic message. -/
structure IvpSol where
  ys : List (ℚ × ℚ)
  success : Bool
  message : String
deriving DecidableEq

/-- Right-hand side of a first-order ODE system in state (x, v); evaluation
may raise (np.interp raises on mismatched array lengths). -/
abbrev RHS := ℚ → ℚ × ℚ → Except String (ℚ × ℚ)

/-- Interface of scipy solve_ivp as used by the source: right-hand side,
t_span, y0, t_eval; either an exception or an IvpSol. -/
abbrev Ivp := RHS → ℚ × ℚ → ℚ × ℚ → List ℚ → Except String IvpSol

/-- Value part of np.interp on an increasing grid: clamped piecewise-linear
interpolation (the length checks live in `interp`). -/
def interpVal (x : ℚ) : List ℚ → List ℚ → ℚ
  | x0 :: x1 :: xs, y0 :: y1 :: ys =>
      if x ≤ x0 then y0
      else if x ≤ x1 then y0 + (y1 - y0) * (x - x0) / (x1 - x0)
      else interpVal x (x1 :: xs) (y1 :: ys)
  | _ :: [], y0 :: _ => y0
  | _, _ => 0

/-- np.interp(x, xp, fp): raises when xp and fp have different lengths or
are empty, otherwise interpolates. -/
def interp (x : ℚ) (xp fp : List ℚ) : Except String ℚ :=
  if xp.length ≠ fp.length then .error "fp and xp are not of the same length"
  else if xp.length = 0 then .error "array of sample points is empty"
  else .ok (interpVal x xp fp)

/-- modelo_sdof from the source: state y = (x, v), forcing interpolated
from the grid, returns (v, (Fi - c v - k x) / m). -/
def modelo_sdof (m c k : ℚ) (t F_t : List ℚ) (ti : ℚ) (y : ℚ × ℚ) :
    Except String (ℚ × ℚ) :=
  let x := y.1
  let v := y.2
  (interp ti t F_t).map (fun Fi => (v, (Fi - c * v - k * x) / m))

/-- Tail of np.gradient with edge_order 1: central differences inside,
one-sided difference at the right edge. -/
def gradAux (dx p cur : ℚ) : List ℚ → List ℚ
  | [] => [(cur - p) / dx]
  | n :: rest => (n - p) / (2 * dx) :: gradAux dx cur n rest

/-- np.gradient(l, dx): raises unless the array has at least 2 elements. -/
def gradient (l : List ℚ) (dx : ℚ) : Except String (List ℚ) :=
  match l with
  | v0 :: v1 :: rest => .ok ((v1 - v0) / dx :: gradAux dx v0 v1 rest)
  | _ => .error "Shape of array too small to calculate a numeric gradient"

/-- StructuralResponse: the tuple returned by resolver_sdof. -/
structure Resp where
  t : List ℚ
  x : List ℚ
  v : List ℚ
  a : List ℚ
  E_cinetica : List ℚ
  E_potencial : List ℚ
  E_total : List ℚ
deriving DecidableEq

/-- Post-integration part of resolver_sdof: x and v from sol.y,
a = np.gradient(v, dt), and the pointwise energies. -/
def postprocesar (m k dx : ℚ) (t : List ℚ) (ys : List (ℚ × ℚ)) :
    Except String Resp :=
  let x := ys.map Prod.fst
  let v := ys.map Prod.snd
  (gradient v dx).map (fun a =>
    let E_cinetica := v.map (fun vi => (1/2) * m * vi ^ 2)
    let E_potencial := x.map (fun xi => (1/2) * k * xi ^ 2)
    let E_total := List.zipWith (fun e1 e2 => e1 + e2) E_cinetica E_potencial
    ⟨t, x, v, a, E_cinetica, E_potencial, E_total⟩)

/-- Outcome of the try/except of the source: an exception during
integration or post-processing becomes None (after st.error displays the
message), a normal completion is returned as is. -/
def exceptToOption : Except String Resp → Option Resp
  | .ok r => some r
  | .error _ => none

/-- resolver_sdof(m, c, k, T, acc_ground): builds the grid and the seismic
force F_t = -m acc_ground, hands modelo_sdof to the integrator, and
post-processes; the try/except of the source turns any raised exception
into None.  No input validation of any kind is performed. -/
def resolver_sdof (svp : Ivp) (m c k T : ℚ) (acc_ground : List ℚ) : Option Resp :=
  let t := arange T
  let F_t := acc_ground.map (fun ag => -m * ag)
  exceptToOption ((svp (modelo_sdof m c k t F_t) (0, T) (0, 0) t).bind
    (fun sol => postprocesar m k dt t sol.ys))

/-- Stateful view of resolver_sdof: the solver neither reads nor writes the
numpy global random state, which is the only global mutable state of the
program core. -/
def resolver_sdof_run (svp : Ivp) (m c k T : ℚ) (acc_ground : List ℚ)
    (rs : RandState) : Option Resp × RandState :=
  (resolver_sdof svp m c k T acc_ground, rs)

/-- Pair scaling used by the model integrator. -/
def psmul (c : ℚ) (p : ℚ × ℚ) : ℚ × ℚ := (c * p.1, c * p.2)

/-- Pair addition used by the model integrator. -/
def padd (p q : ℚ × ℚ) : ℚ × ℚ := (p.1 + q.1, p.2 + q.2)

/-- Weighted sum of slope pairs used by a Runge-Kutta stage. -/
def wsum (ks : List (ℚ × (ℚ × ℚ))) : ℚ × ℚ :=
  ks.foldr (fun ck acc => padd (psmul ck.1 ck.2) acc) (0, 0)

/-- One intermediate Runge-Kutta stage value y + h * sum of c_i k_i. -/
def stage (y : ℚ × ℚ) (h : ℚ) (ks : List (ℚ × (ℚ × ℚ))) : ℚ × ℚ :=
  padd y (psmul h (wsum ks))

/-- One Dormand-Prince RK45 step of size h from (tn, y), the pair method of
scipy RK45; any exception from the right-hand side propagates. -/
def dopriStep (f : RHS) (tn h : ℚ) (y : ℚ × ℚ) : Except String (ℚ × ℚ) :=
  (f tn y).bind fun k1 =>
  (f (tn + (1/5) * h) (stage y h [((1/5), k1)])).bind fun k2 =>
  (f (tn + (3/10) * h) (stage y h [((3/40), k1), ((9/40), k2)])).bind fun k3 =>
  (f (tn + (4/5) * h) (stage y h [((44/45), k1), ((-56/15), k2), ((32/9), k3)])).bind fun k4 =>
  (f (tn + (8/9) * h)
      (stage y h [((19372/6561), k1), ((-25360/2187), k2), ((64448/6561), k3),
        ((-212/729), k4)])).bind fun k5 =>
  (f (tn + h)
      (stage y h [((9017/3168), k1), ((-355/33), k2), ((46732/5247), k3),
        ((49/176), k4), ((-5103/18656), k5)])).bind fun k6 =>
  .ok (stage y h [((35/384), k1), ((500/1113), k3), ((125/192), k4),
    ((-2187/6784), k5), ((11/84), k6)])

/-- States at the successive t_eval points after the first: one RK45 step
per grid interval (the internal step is capped at max_step = dt, the grid
spacing). -/
def integrateAux (f : RHS) : ℚ × ℚ → ℚ → List ℚ → Except String (List (ℚ × ℚ))
  | _, _, [] => .ok []
  | y, tp, tn :: rest =>
      (dopriStep f tp (tn - tp) y).bind fun y2 =>
      (integrateAux f y2 tn rest).map fun tail => y2 :: tail

/-- Message scipy attaches to a successful run. -/
def okMessage : String :=
  "The solver successfully reached the end of the integration interval."

/-- Concrete executable model of scipy solve_ivp with method RK45 (see the
header comment): reports y0 at the first t_eval point and Dormand-Prince
propagation at the following ones. -/
def solve_ivp_model : Ivp := fun f _tspan y0 t_eval =>
  match t_eval with
  | [] => .ok ⟨[], true, okMessage⟩
  | t0 :: rest => (integrateAux f y0 t0 rest).map (fun ys => ⟨y0 :: ys, true, okMessage⟩)

/-- States a hand-written integrator outcome used to probe resolver_sdof:
three states, success reported. -/
def svp_ok_sol : IvpSol := ⟨[(0, 0), (1, 1), (2, 2)], true, okMessage⟩

/-- Integrator stub that returns svp_ok_sol. -/
def svp_ok : Ivp := fun _ _ _ _ => .ok svp_ok_sol

/-- Integrator outcome modelling a scipy non-convergence: only 3 of the
requested states were reached and success is False, with the scipy
diagnostic; scipy reports this in the returned object without raising. -/
def svp_fail_sol : IvpSol :=
  ⟨[(0, 0), (1, 1), (2, 2)], false, "Required step size is less than spacing between numbers."⟩

/-- Integrator stub that returns svp_fail_sol. -/
def svp_fail_flag : Ivp := fun _ _ _ _ => .ok svp_fail_sol

/-- Integrator stub that raises, as scipy does when the right-hand side
raises. -/
def svp_raise : Ivp := fun _ _ _ _ => .error "error al resolver la ecuacion diferencial"

theorem ceil_eq_neg_floor (a : ℚ) : ⌈a⌉ = -⌊-a⌋ := by
  rw [Int.floor_neg, neg_neg]

theorem arange_length (T : ℚ) : (arange T).length = nSamples T := by
  simp only [arange, List.length_map, List.length_range]

theorem nSamples_one_div_50 : nSamples (1/50) = 2 := by
  rw [nSamples, ceil_eq_neg_floor]
  norm_num [dt]
  omega

theorem nSamples_one_div_20 : nSamples (1/20) = 5 := by
  rw [nSamples, ceil_eq_neg_floor]
  norm_num [dt]
  omega

theorem nSamples_one_div_200 : nSamples (1/200) = 1 := by
  rw [nSamples, ceil_eq_neg_floor]
  norm_num [dt]

theorem nSamples_three_div_200 : nSamples (3/200) = 2 := by
  rw [nSamples, ceil_eq_neg_floor]
  norm_num [dt]
  omega

theorem arange_one_div_50 : arange (1/50) = [0, 1/100] := by
  rw [arange, nSamples_one_div_50]
  simp [List.range_succ, dt]

theorem arange_one_div_200 : arange (1/200) = [0] := by
  rw [arange, nSamples_one_div_200]
  simp [List.range_succ]

theorem abs_le_maxAbs (x : ℚ) (l : List ℚ) (hx : x ∈ l) : |x| ≤ maxAbs l := by
  induction l with
  | nil => cases hx
  | cons y ys ih =>
    simp only [maxAbs, List.foldr_cons] at *
    rcases List.mem_cons.mp hx with h | h
    · exact h ▸ le_max_left _ _
    · exact le_max_of_le_right (ih h)

theorem generar_raw_const_eval :
    generar_raw (fun _ => 1) 0 (fun _ _ => 0) (1/50) 0 = [33/10, 33/10] := by
  simp only [generar_raw, arange_one_div_50, ricker, List.map_cons, List.map_nil,
    List.length_cons, List.length_nil, List.zipWith_cons_cons, List.zipWith_nil_right,
    List.range_succ, List.range_zero]
  norm_num

theorem maxAbs_nonneg (l : List ℚ) : 0 ≤ maxAbs l := by
  induction l with
  | nil => simp [maxAbs]
  | cons x xs ih =>
    simp only [maxAbs, List.foldr_cons] at *
    exact le_max_of_le_right ih

theorem maxAbs_map_mul (l : List ℚ) (c : ℚ) :
    maxAbs (l.map (fun x => x * c)) = maxAbs l * |c| := by
  induction l with
  | nil => simp [maxAbs]
  | cons x xs ih =>
    simp only [List.map_cons, maxAbs, List.foldr_cons] at *
    rw [ih, abs_mul, max_mul_of_nonneg _ _ (abs_nonneg c)]

/-- C3: for every valid (T, intensity, seed) whose raw superposition is not
identically zero, the acceleration array returned by generar_sismo consists
of finite values whose maximum absolute value is exactly 0.6 times the
intensity, whatever the magnitude of the raw signal. -/
theorem generar_sismo_peak (fexp : ℚ → ℚ) (fpi : ℚ) (randn : ℕ → ℕ → ℚ)
    (T intensidad : ℚ) (seed : ℕ) (rs : RandState)
    (hI : 0 < intensidad)
    (hM : maxAbs (generar_raw fexp fpi randn T seed) ≠ 0) :
    ∃ u : List ℚ,
      (generar_sismo fexp fpi randn T intensidad seed rs).1.2 = u.map some ∧
      maxAbs u = (3/5) * intensidad := by
  have hMpos : 0 < maxAbs (generar_raw fexp fpi randn T seed) :=
    lt_of_le_of_ne (maxAbs_nonneg _) (Ne.symm hM)
  refine ⟨(generar_raw fexp fpi randn T seed).map
      (fun ai => ai / maxAbs (generar_raw fexp fpi randn T seed) * ((3/5) * intensidad)),
    ?_, ?_⟩
  · show (generar_raw fexp fpi randn T seed).map
        (fun ai => if maxAbs (generar_raw fexp fpi randn T seed) = 0 then none
          else some (ai / maxAbs (generar_raw fexp fpi randn T seed) * ((3/5) * intensidad)))
      = _
    simp only [hM, if_false, List.map_map]
    rfl
  · have hfun : (fun ai => ai / maxAbs (generar_raw fexp fpi randn T seed)
          * ((3/5) * intensidad))
        = fun ai => ai * (((3/5) * intensidad) / maxAbs (generar_raw fexp fpi randn T seed)) := by
      funext ai; ring
    rw [hfun, maxAbs_map_mul,
      abs_of_pos (div_pos (by linarith) hMpos), mul_comm, div_mul_cancel₀ _ hM]

/-- C3 witness: a concrete instantiation (model exp and pi constant, noise
zero, T = 0.02, intensity 1) with nonzero raw signal; the returned record
peaks at exactly 0.6. -/
theorem generar_sismo_peak_w :
    (0 : ℚ) < 1 ∧
    maxAbs (generar_raw (fun _ => 1) 0 (fun _ _ => 0) (1/50) 0) ≠ 0 ∧
    ∃ u : List ℚ,
      (generar_sismo (fun _ => 1) 0 (fun _ _ => 0) (1/50) 1 0 ⟨0, 0⟩).1.2 = u.map some ∧
      maxAbs u = (3/5) * 1 := by
  have hM : maxAbs (generar_raw (fun _ => 1) 0 (fun _ _ => 0) (1/50) 0) ≠ 0 := by
    have h1 : |(33/10 : ℚ)| ≤ maxAbs (generar_raw (fun _ => 1) 0 (fun _ _ => 0) (1/50) 0) :=
      abs_le_maxAbs _ _ (by rw [generar_raw_const_eval]; simp)
    rw [abs_of_pos (by norm_num)] at h1
    intro h
    rw [h] at h1
    norm_num at h1
  exact ⟨by norm_num, hM, generar_sismo_peak _ _ _ _ _ _ _ (by norm_num) hM⟩

/-- C4: the code does NOT guard the degenerate all-zero raw signal: the
normalization line acc / max(abs(acc)) * (0.6 * intensidad) divides zero by
zero and every sample of the returned record is NaN (modelled none), not
the all-zero record the specification requires.  Evaluation at an
instantiation realizing the degenerate case (all wavelet, envelope and
noise contributions zero, T = 0.02, intensity 1). -/
theorem generar_sismo_degenerate_nan :
    (generar_sismo (fun _ => 0) 0 (fun _ _ => 0) (1/50) 1 0 ⟨0, 0⟩).1.2 = [none, none] ∧
    (generar_sismo (fun _ => 0) 0 (fun _ _ => 0) (1/50) 1 0 ⟨0, 0⟩).1.2
      ≠ List.replicate 2 (some (0 : ℚ)) := by
  have hraw : generar_raw (fun _ => 0) 0 (fun _ _ => 0) (1/50) 0 = [0, 0] := by
    simp only [generar_raw, arange_one_div_50, ricker, List.map_cons, List.map_nil,
      List.length_cons, List.length_nil, List.zipWith_cons_cons, List.zipWith_nil_right,
      List.range_succ, List.range_zero]
    norm_num
  constructor
  · simp only [generar_sismo, hraw]
    simp [maxAbs]
  · simp only [generar_sismo, hraw]
    simp [maxAbs, List.replicate]

/-- C5: generar_sismo is deterministic: its returned time and acceleration
arrays do not depend on the incoming numpy global random state (the call
reseeds with the seed argument first), so any two calls with identical
(T, intensity, seed) — in particular an immediate repetition — produce
identical arrays. -/
theorem generar_sismo_deterministic (fexp : ℚ → ℚ) (fpi : ℚ) (randn : ℕ → ℕ → ℚ)
    (T intensidad : ℚ) (seed : ℕ) (rs rs' : RandState) :
    (generar_sismo fexp fpi randn T intensidad seed rs).1
      = (generar_sismo fexp fpi randn T intensidad seed rs').1 ∧
    (generar_sismo fexp fpi randn T intensidad seed
        ((generar_sismo fexp fpi randn T intensidad seed rs).2)).1
      = (generar_sismo fexp fpi randn T intensidad seed rs).1 :=
  ⟨rfl, rfl⟩

/-- C10: intensity homogeneity: for fixed (T, seed) and any scale lam > 0,
the record generated at intensity lam * I is the record generated at
intensity I scaled samplewise by lam (intensity only enters as the final
linear scale). -/
theorem generar_sismo_homogeneous (fexp : ℚ → ℚ) (fpi : ℚ) (randn : ℕ → ℕ → ℚ)
    (T intensidad lam : ℚ) (seed : ℕ) (rs : RandState) (hlam : 0 < lam) :
    (generar_sismo fexp fpi randn T (lam * intensidad) seed rs).1.2
      = ((generar_sismo fexp fpi randn T intensidad seed rs).1.2).map
          (Option.map (fun x => lam * x)) := by
  simp only [generar_sismo, List.map_map]
  refine List.map_congr_left (fun ai _ => ?_)
  by_cases h : maxAbs (generar_raw fexp fpi randn T seed) = 0
  · simp [h, Function.comp]
  · simp only [h, if_false, Function.comp_apply, Option.map_some]
    congr 1
    ring

/-- C10 witness: concrete instantiation with lam = 2, T = 0.02,
intensity 1. -/
theorem generar_sismo_homogeneous_w :
    (0 : ℚ) < 2 ∧
    (generar_sismo (fun _ => 1) 0 (fun _ _ => 0) (1/50) (2 * 1) 0 ⟨0, 0⟩).1.2
      = ((generar_sismo (fun _ => 1) 0 (fun _ _ => 0) (1/50) 1 0 ⟨0, 0⟩).1.2).map
          (Option.map (fun x => 2 * x)) :=
  ⟨by norm_num, generar_sismo_homogeneous _ _ _ _ _ _ _ _ (by norm_num)⟩

@[simp] theorem exceptToOption_ok (r : Resp) : exceptToOption (.ok r) = some r := rfl

@[simp] theorem exceptToOption_error (e : String) : exceptToOption (.error e) = none := rfl

theorem resolver_sdof_eq (svp : Ivp) (m c k T : ℚ) (acc : List ℚ) :
    resolver_sdof svp m c k T acc
      = exceptToOption ((svp (modelo_sdof m c k (arange T) (acc.map (fun ag => -m * ag)))
          (0, T) (0, 0) (arange T)).bind
          (fun sol => postprocesar m k dt (arange T) sol.ys)) := rfl

theorem generar_raw_length (fexp : ℚ → ℚ) (fpi : ℚ) (randn : ℕ → ℕ → ℚ) (T : ℚ) (seed : ℕ) :
    (generar_raw fexp fpi randn T seed).length = (arange T).length := by
  simp [generar_raw]

theorem interpVal_zero (x : ℚ) (xp : List ℚ) :
    ∀ fp : List ℚ, (∀ y ∈ fp, y = 0) → interpVal x xp fp = 0 := by
  induction xp with
  | nil => intro fp h; cases fp <;> simp [interpVal]
  | cons x0 xtl ih =>
    intro fp h
    cases xtl with
    | nil =>
      cases fp with
      | nil => simp [interpVal]
      | cons y0 ys => simpa [interpVal] using h y0 (by simp)
    | cons x1 xs =>
      cases fp with
      | nil => simp [interpVal]
      | cons y0 ytl =>
        cases ytl with
        | nil => simp [interpVal]
        | cons y1 ys =>
          have h0 := h y0 (by simp)
          have h1 := h y1 (by simp)
          have ihr := ih (0 :: ys) (by
            intro y hy
            rcases List.mem_cons.mp hy with h' | h'
            · exact h'
            · exact h y (List.mem_cons_of_mem _ (List.mem_cons_of_mem _ h')))
          simp [interpVal, h0, h1, ihr]

theorem modelo_sdof_ok (m c k : ℚ) (t F : List ℚ) (hlen : t.length = F.length)
    (hne : t.length ≠ 0) (ti : ℚ) (y : ℚ × ℚ) :
    modelo_sdof m c k t F ti y
      = .ok (y.2, (interpVal ti t F - c * y.2 - k * y.1) / m) := by
  unfold modelo_sdof interp
  rw [if_neg (by simp [hlen]), if_neg hne]
  rfl

theorem modelo_sdof_err (m c k : ℚ) (t F : List ℚ) (hlen : t.length ≠ F.length)
    (ti : ℚ) (y : ℚ × ℚ) :
    modelo_sdof m c k t F ti y = .error "fp and xp are not of the same length" := by
  unfold modelo_sdof interp
  rw [if_pos hlen]
  rfl

theorem modelo_sdof_zero (m c k : ℚ) (t F : List ℚ) (hlen : t.length = F.length)
    (hne : t.length ≠ 0) (hF : ∀ y ∈ F, y = 0) (ti : ℚ) :
    modelo_sdof m c k t F ti (0, 0) = .ok (0, 0) := by
  rw [modelo_sdof_ok m c k t F hlen hne ti (0, 0), interpVal_zero ti t F hF]
  norm_num

theorem wsum_zero (ks : List (ℚ × (ℚ × ℚ))) (hks : ∀ p ∈ ks, p.2 = (0, 0)) :
    wsum ks = (0, 0) := by
  induction ks with
  | nil => rfl
  | cons p ps ih =>
    simp only [wsum, List.foldr_cons] at *
    rw [ih (fun q hq => hks q (List.mem_cons_of_mem _ hq)), hks p (List.mem_cons_self _ _)]
    simp [padd, psmul]

theorem stage_zero (h : ℚ) (ks : List (ℚ × (ℚ × ℚ))) (hks : ∀ p ∈ ks, p.2 = (0, 0)) :
    stage (0, 0) h ks = (0, 0) := by
  rw [stage, wsum_zero ks hks]
  simp [padd, psmul]

theorem dopriStep_err (f : RHS) (tn h : ℚ) (y : ℚ × ℚ) (e : String)
    (hf : f tn y = .error e) : dopriStep f tn h y = .error e := by
  rw [dopriStep, hf]
  rfl

theorem dopriStep_zero (f : RHS) (hz : ∀ t, f t (0, 0) = .ok (0, 0)) (tn h : ℚ) :
    dopriStep f tn h (0, 0) = .ok (0, 0) := by
  have hs : ∀ ks : List (ℚ × (ℚ × ℚ)), (∀ p ∈ ks, p.2 = (0, 0)) →
      stage (0, 0) h ks = (0, 0) := stage_zero h
  rw [dopriStep, hz tn]
  simp only [Except.bind]
  rw [hs [((1:ℚ)/5, ((0:ℚ), (0:ℚ)))] (by simp), hz]
  simp only [Except.bind]
  rw [hs [((3:ℚ)/40, ((0:ℚ), (0:ℚ))), (9/40, (0, 0))] (by simp), hz]
  simp only [Except.bind]
  rw [hs [((44:ℚ)/45, ((0:ℚ), (0:ℚ))), (-56/15, (0, 0)), (32/9, (0, 0))] (by simp), hz]
  simp only [Except.bind]
  rw [hs [((19372:ℚ)/6561, ((0:ℚ), (0:ℚ))), (-25360/2187, (0, 0)), (64448/6561, (0, 0)),
    (-212/729, (0, 0))] (by simp), hz]
  simp only [Except.bind]
  rw [hs [((9017:ℚ)/3168, ((0:ℚ), (0:ℚ))), (-355/33, (0, 0)), (46732/5247, (0, 0)),
    (49/176, (0, 0)), (-5103/18656, (0, 0))] (by simp), hz]
  simp only [Except.bind]
  rw [hs [((35:ℚ)/384, ((0:ℚ), (0:ℚ))), (500/1113, (0, 0)), (125/192, (0, 0)),
    (-2187/6784, (0, 0)), (11/84, (0, 0))] (by simp)]

theorem dopriStep_ok (f : RHS) (hf : ∀ t y, ∃ z, f t y = .ok z) (tn h : ℚ) (y : ℚ × ℚ) :
    ∃ z, dopriStep f tn h y = .ok z := by
  obtain ⟨k1, e1⟩ := hf tn y
  obtain ⟨k2, e2⟩ := hf (tn + (1/5) * h) (stage y h [((1/5), k1)])
  obtain ⟨k3, e3⟩ := hf (tn + (3/10) * h) (stage y h [((3/40), k1), ((9/40), k2)])
  obtain ⟨k4, e4⟩ := hf (tn + (4/5) * h)
    (stage y h [((44/45), k1), ((-56/15), k2), ((32/9), k3)])
  obtain ⟨k5, e5⟩ := hf (tn + (8/9) * h)
    (stage y h [((19372/6561), k1), ((-25360/2187), k2), ((64448/6561), k3), ((-212/729), k4)])
  obtain ⟨k6, e6⟩ := hf (tn + h)
    (stage y h [((9017/3168), k1), ((-355/33), k2), ((46732/5247), k3), ((49/176), k4),
      ((-5103/18656), k5)])
  refine ⟨stage y h [((35/384), k1), ((500/1113), k3), ((125/192), k4), ((-2187/6784), k5),
    ((11/84), k6)], ?_⟩
  rw [dopriStep, e1]
  simp only [Except.bind]
  rw [e2]
  simp only [Except.bind]
  rw [e3]
  simp only [Except.bind]
  rw [e4]
  simp only [Except.bind]
  rw [e5]
  simp only [Except.bind]
  rw [e6]

theorem integrateAux_zero (f : RHS) (hz : ∀ t, f t (0, 0) = .ok (0, 0)) (ts : List ℚ) :
    ∀ t0 : ℚ, integrateAux f (0, 0) t0 ts = .ok (List.replicate ts.length (0, 0)) := by
  induction ts with
  | nil => intro t0; rfl
  | cons tn rest ih =>
    intro t0
    rw [integrateAux, dopriStep_zero f hz]
    simp only [Except.bind]
    rw [ih tn]
    simp [Except.map, List.replicate_succ]

theorem integrateAux_ok (f : RHS) (hf : ∀ t y, ∃ z, f t y = .ok z) (ts : List ℚ) :
    ∀ (y : ℚ × ℚ) (t0 : ℚ), ∃ ys, integrateAux f y t0 ts = .ok ys ∧ ys.length = ts.length := by
  induction ts with
  | nil => exact fun y t0 => ⟨[], rfl, rfl⟩
  | cons tn rest ih =>
    intro y t0
    obtain ⟨y2, e2⟩ := dopriStep_ok f hf t0 (tn - t0) y
    obtain ⟨ys, eys, hlen⟩ := ih y2 tn
    refine ⟨y2 :: ys, ?_, by simp [hlen]⟩
    rw [integrateAux, e2]
    simp only [Except.bind]
    rw [eys]
    rfl

theorem integrateAux_err (f : RHS) (e : String) (hf : ∀ t y, f t y = .error e)
    (y : ℚ × ℚ) (t0 tn : ℚ) (rest : List ℚ) :
    integrateAux f y t0 (tn :: rest) = .error e := by
  rw [integrateAux, dopriStep_err f t0 (tn - t0) y e (hf _ _)]
  rfl

theorem solve_ivp_model_zero (f : RHS) (hz : ∀ t, f t (0, 0) = .ok (0, 0)) (sp : ℚ × ℚ)
    (t0 : ℚ) (rest : List ℚ) :
    solve_ivp_model f sp (0, 0) (t0 :: rest)
      = .ok ⟨List.replicate (rest.length + 1) (0, 0), true, okMessage⟩ := by
  simp only [solve_ivp_model]
  rw [integrateAux_zero f hz rest t0]
  simp [Except.map, List.replicate_succ]

theorem solve_ivp_model_ok (f : RHS) (hf : ∀ t y, ∃ z, f t y = .ok z) (sp y0 : ℚ × ℚ)
    (te : List ℚ) :
    ∃ sol : IvpSol, solve_ivp_model f sp y0 te = .ok sol ∧ sol.ys.length = te.length := by
  cases te with
  | nil => exact ⟨⟨[], true, okMessage⟩, rfl, rfl⟩
  | cons t0 rest =>
    obtain ⟨ys, hys, hlen⟩ := integrateAux_ok f hf rest y0 t0
    refine ⟨⟨y0 :: ys, true, okMessage⟩, ?_, by simp [hlen]⟩
    simp only [solve_ivp_model]
    rw [hys]
    rfl

theorem gradAux_length (dx : ℚ) (l : List ℚ) :
    ∀ p c : ℚ, (gradAux dx p c l).length = l.length + 1 := by
  induction l with
  | nil => intro p c; rfl
  | cons n rest ih => intro p c; simp [gradAux, ih]

theorem gradient_ok (l : List ℚ) (dx : ℚ) (h2 : 2 ≤ l.length) :
    ∃ g, gradient l dx = .ok g ∧ g.length = l.length := by
  cases l with
  | nil => simp at h2
  | cons v0 l1 =>
    cases l1 with
    | nil => simp at h2
    | cons v1 rest => exact ⟨_, rfl, by simp [gradAux_length]⟩

theorem gradAux_zero (dx : ℚ) : ∀ n : ℕ,
    gradAux dx 0 0 (List.replicate n 0) = List.replicate (n + 1) 0 := by
  intro n
  induction n with
  | zero => simp [gradAux, List.replicate]
  | succ j ih =>
    rw [List.replicate_succ]
    simp only [gradAux]
    rw [ih]
    simp [List.replicate_succ]

theorem gradient_replicate_zero (dx : ℚ) (n : ℕ) (h2 : 2 ≤ n) :
    gradient (List.replicate n 0) dx = .ok (List.replicate n 0) := by
  obtain ⟨j, rfl⟩ : ∃ j, n = j + 2 := ⟨n - 2, by omega⟩
  rw [show List.replicate (j + 2) (0:ℚ) = 0 :: 0 :: List.replicate j 0 by
    simp [List.replicate_succ]]
  simp only [gradient]
  rw [gradAux_zero]
  simp [List.replicate_succ]

theorem zipWith_replicate_add (n : ℕ) :
    List.zipWith (fun e1 e2 => e1 + e2) (List.replicate n (0:ℚ)) (List.replicate n 0)
      = List.replicate n 0 := by
  induction n with
  | zero => rfl
  | succ j ih => simp [List.replicate_succ, ih]

theorem postprocesar_replicate_zero (m k dx : ℚ) (t : List ℚ) (n : ℕ) (h2 : 2 ≤ n) :
    postprocesar m k dx t (List.replicate n (0, 0))
      = .ok ⟨t, List.replicate n 0, List.replicate n 0, List.replicate n 0,
          List.replicate n 0, List.replicate n 0, List.replicate n 0⟩ := by
  have hx : (List.replicate n ((0:ℚ), (0:ℚ))).map Prod.fst = List.replicate n 0 := by
    simp [List.map_replicate]
  have hv : (List.replicate n ((0:ℚ), (0:ℚ))).map Prod.snd = List.replicate n 0 := by
    simp [List.map_replicate]
  have he1 : ((1:ℚ)/2) * m * (0:ℚ) ^ 2 = 0 := by ring
  have he2 : ((1:ℚ)/2) * k * (0:ℚ) ^ 2 = 0 := by ring
  simp only [postprocesar, hx, hv]
  rw [gradient_replicate_zero dx n h2]
  simp only [Except.map, List.map_replicate, he1, he2, zipWith_replicate_add]

theorem postprocesar_ok (m k dx : ℚ) (t : List ℚ) (ys : List (ℚ × ℚ)) (h2 : 2 ≤ ys.length) :
    ∃ r : Resp, postprocesar m k dx t ys = .ok r ∧ r.t = t ∧
      r.x.length = ys.length ∧ r.v.length = ys.length ∧ r.a.length = ys.length ∧
      r.E_cinetica.length = ys.length ∧ r.E_potencial.length = ys.length ∧
      r.E_total.length = ys.length := by
  obtain ⟨g, hg, hglen⟩ := gradient_ok (ys.map Prod.snd) dx (by simpa using h2)
  refine ⟨⟨t, ys.map Prod.fst, ys.map Prod.snd, g,
      (ys.map Prod.snd).map (fun vi => (1/2) * m * vi ^ 2),
      (ys.map Prod.fst).map (fun xi => (1/2) * k * xi ^ 2),
      List.zipWith (fun e1 e2 => e1 + e2)
        ((ys.map Prod.snd).map (fun vi => (1/2) * m * vi ^ 2))
        ((ys.map Prod.fst).map (fun xi => (1/2) * k * xi ^ 2))⟩,
    ?_, rfl, by simp, by simp, by simpa using hglen, by simp, by simp, by simp⟩
  simp only [postprocesar]
  rw [hg]
  rfl

/-- C1 counterexample: the claim says a call with m = 0 raises
InvalidParameterError before any integration step.  In fact resolver_sdof
validates nothing: at m = 0 the outcome is entirely determined by the
integrator that is invoked — an integrator returning states yields a
normal response (isSome), an integrator raising yields None; no
InvalidParameterError exists anywhere in the code. -/
theorem resolver_sdof_m_zero_cx :
    (resolver_sdof svp_ok 0 (1/2) 20 (1/50) [0, 0]).isSome = true ∧
    resolver_sdof svp_raise 0 (1/2) 20 (1/50) [0, 0] = none := by
  constructor
  · rw [resolver_sdof_eq]
    simp [svp_ok, svp_ok_sol, Except.bind, postprocesar, gradient, Except.map,
      List.map_cons, List.map_nil]
  · rw [resolver_sdof_eq]
    simp [svp_raise, Except.bind]

/-- C1 (amended): resolver_sdof performs no input validation whatsoever:
with m = 0 no error is raised before integration; the integrator is
invoked on the invalid parameters, and whenever it returns at least two
states the call returns a normal post-processed response. -/
theorem resolver_sdof_m_zero_integrates (svp : Ivp) (c k T : ℚ) (acc : List ℚ) (sol : IvpSol)
    (hsvp : svp (modelo_sdof 0 c k (arange T) (acc.map (fun ag => -(0:ℚ) * ag))) (0, T) (0, 0)
        (arange T) = .ok sol)
    (h2 : 2 ≤ sol.ys.length) :
    ∃ r : Resp, resolver_sdof svp 0 c k T acc = some r := by
  obtain ⟨r, hr, -⟩ := postprocesar_ok 0 k dt (arange T) sol.ys h2
  refine ⟨r, ?_⟩
  rw [resolver_sdof_eq, hsvp]
  simp only [Except.bind]
  rw [hr]
  rfl

/-- C1 witness: concrete call at m = 0 with the three-state integrator
stub. -/
theorem resolver_sdof_m_zero_integrates_w :
    (svp_ok (modelo_sdof 0 (1/2) 20 (arange (1/50))
        (([0, 0] : List ℚ).map (fun ag => -(0:ℚ) * ag))) (0, 1/50) (0, 0) (arange (1/50))
      = .ok svp_ok_sol) ∧
    2 ≤ svp_ok_sol.ys.length ∧
    ∃ r : Resp, resolver_sdof svp_ok 0 (1/2) 20 (1/50) [0, 0] = some r :=
  ⟨rfl, by simp [svp_ok_sol],
    resolver_sdof_m_zero_integrates svp_ok (1/2) 20 (1/50) [0, 0] svp_ok_sol rfl
      (by simp [svp_ok_sol])⟩

/-- C2 counterexample: the claim says a run in which the integrator fails
to converge yields no result at all.  With an integrator outcome carrying
success = False, the scipy non-convergence diagnostic and only 3 of the 5
requested states (exactly how scipy reports a failed run, without
raising), resolver_sdof still returns a complete-looking partial
StructuralResponse. -/
theorem resolver_sdof_partial_response_cx :
    resolver_sdof svp_fail_flag 1 (1/2) 20 (1/20) (List.replicate 5 0)
      = some ⟨arange (1/20), [0, 1, 2], [0, 1, 2], [100, 100, 100],
          [0, 1/2, 2], [0, 10, 40], [0, 21/2, 42]⟩ := by
  rw [resolver_sdof_eq]
  simp only [svp_fail_flag, svp_fail_sol, Except.bind, postprocesar, List.map_cons,
    List.map_nil, gradient, gradAux, Except.map, List.zipWith_cons_cons, List.zipWith_nil_right,
    exceptToOption_ok]
  norm_num [dt]

/-- C2 (amended): the integrator-reported success flag is never consulted
and no finiteness check is performed: whenever the integration call
returns (rather than raising), even reporting non-convergence with
success = false and a partial state list, resolver_sdof post-processes the
states it got and returns them as a normal response; it returns None only
when an exception is raised during integration or post-processing. -/
theorem resolver_sdof_ignores_success (svp : Ivp) (m c k T : ℚ) (acc : List ℚ) (sol : IvpSol)
    (hsvp : svp (modelo_sdof m c k (arange T) (acc.map (fun ag => -m * ag))) (0, T) (0, 0)
        (arange T) = .ok sol)
    (hfail : sol.success = false)
    (h2 : 2 ≤ sol.ys.length) :
    ∃ r : Resp, resolver_sdof svp m c k T acc = some r := by
  obtain ⟨r, hr, -⟩ := postprocesar_ok m k dt (arange T) sol.ys h2
  refine ⟨r, ?_⟩
  rw [resolver_sdof_eq, hsvp]
  simp only [Except.bind]
  rw [hr]
  rfl

/-- C2 witness: the failing-flag integrator stub at concrete valid
parameters. -/
theorem resolver_sdof_ignores_success_w :
    (svp_fail_flag (modelo_sdof 1 (1/2) 20 (arange (1/20))
        ((List.replicate 5 (0:ℚ)).map (fun ag => -(1:ℚ) * ag))) (0, 1/20) (0, 0) (arange (1/20))
      = .ok svp_fail_sol) ∧
    svp_fail_sol.success = false ∧
    2 ≤ svp_fail_sol.ys.length ∧
    ∃ r : Resp, resolver_sdof svp_fail_flag 1 (1/2) 20 (1/20) (List.replicate 5 0) = some r :=
  ⟨rfl, rfl, by simp [svp_fail_sol],
    resolver_sdof_ignores_success svp_fail_flag 1 (1/2) 20 (1/20) (List.replicate 5 0)
      svp_fail_sol rfl rfl (by simp [svp_fail_sol])⟩

/-- C6 counterexample: at the valid duration T = 0.015 the time vector
returned by generar_sismo has 2 samples (the arange count is the ceiling
of T/dt), while the claimed floor(T/dt) is 1. -/
theorem series_length_cx :
    ((generar_sismo (fun _ => 1) 0 (fun _ _ => 0) (3/200) 1 0 ⟨0, 0⟩).1.1).length = 2 ∧
    ⌊(3/200 : ℚ) / dt⌋ = 1 ∧
    ((generar_sismo (fun _ => 1) 0 (fun _ _ => 0) (3/200) 1 0 ⟨0, 0⟩).1.1).length
      ≠ (⌊(3/200 : ℚ) / dt⌋).toNat := by
  have h1 : ((generar_sismo (fun _ => 1) 0 (fun _ _ => 0) (3/200) 1 0 ⟨0, 0⟩).1.1).length = 2 := by
    show (arange (3/200)).length = 2
    rw [arange_length, nSamples_three_div_200]
  have h2 : ⌊(3/200 : ℚ) / dt⌋ = 1 := by norm_num [dt]
  refine ⟨h1, h2, ?_⟩
  rw [h1, h2]
  norm_num

/-- C6 (amended): every series of a run shares the time grid
arange(0, T, 0.01) of length nSamples T = ceil(T/dt) (equal to
floor(T/dt) only when T is a multiple of dt): the time vector starts at
0, generar_sismo returns time and record of that length, and for an
aligned input record of at least two samples the solver returns a
response whose seven series all have that same length and whose time
field is that same grid. -/
theorem series_lengths (fexp : ℚ → ℚ) (fpi : ℚ) (randn : ℕ → ℕ → ℚ)
    (m c k T intensidad : ℚ) (seed : ℕ) (rs : RandState) (acc : List ℚ)
    (hT : 0 < T) (hacc : acc.length = (arange T).length) (h2 : 2 ≤ (arange T).length) :
    (arange T).length = nSamples T ∧
    (arange T).head? = some 0 ∧
    (generar_sismo fexp fpi randn T intensidad seed rs).1.1 = arange T ∧
    ((generar_sismo fexp fpi randn T intensidad seed rs).1.2).length = (arange T).length ∧
    ∃ r : Resp, resolver_sdof solve_ivp_model m c k T acc = some r ∧
      r.t = arange T ∧ r.x.length = (arange T).length ∧ r.v.length = (arange T).length ∧
      r.a.length = (arange T).length ∧ r.E_cinetica.length = (arange T).length ∧
      r.E_potencial.length = (arange T).length ∧ r.E_total.length = (arange T).length := by
  refine ⟨arange_length T, ?_, rfl, ?_, ?_⟩
  · have hn : 1 ≤ nSamples T := by
      have := arange_length T
      omega
    obtain ⟨j, hj⟩ : ∃ j, nSamples T = j + 1 := ⟨nSamples T - 1, by omega⟩
    rw [arange, hj, List.range_succ_eq_map]
    simp
  · show ((generar_raw fexp fpi randn T seed).map _).length = _
    rw [List.length_map, generar_raw_length]
  · have hF : ((acc.map (fun ag => -m * ag)).length = (arange T).length) := by
      rw [List.length_map, hacc]
    have hmod : ∀ ti y, ∃ z,
        modelo_sdof m c k (arange T) (acc.map (fun ag => -m * ag)) ti y = .ok z :=
      fun ti y => ⟨_, modelo_sdof_ok m c k _ _ hF.symm (by omega) ti y⟩
    obtain ⟨sol, hsol, hslen⟩ := solve_ivp_model_ok _ hmod (0, T) (0, 0) (arange T)
    obtain ⟨r, hr, hrt, hx, hv, ha, hec, hep, het⟩ :=
      postprocesar_ok m k dt (arange T) sol.ys (by rw [hslen]; exact h2)
    refine ⟨r, ?_, hrt, by rw [hx, hslen], by rw [hv, hslen], by rw [ha, hslen],
      by rw [hec, hslen], by rw [hep, hslen], by rw [het, hslen]⟩
    rw [resolver_sdof_eq, hsol]
    simp only [Except.bind]
    rw [hr]
    rfl

/-- C6 witness: T = 0.05 with an aligned 5-sample record. -/
theorem series_lengths_w :
    (0 : ℚ) < 1/20 ∧ (List.replicate 5 (0:ℚ)).length = (arange (1/20)).length ∧
    2 ≤ (arange (1/20)).length ∧
    ((arange (1/20)).length = nSamples (1/20) ∧
      (arange (1/20)).head? = some 0 ∧
      (generar_sismo (fun _ => 1) 0 (fun _ _ => 0) (1/20) 1 0 ⟨0, 0⟩).1.1 = arange (1/20) ∧
      ((generar_sismo (fun _ => 1) 0 (fun _ _ => 0) (1/20) 1 0 ⟨0, 0⟩).1.2).length
        = (arange (1/20)).length ∧
      ∃ r : Resp, resolver_sdof solve_ivp_model 1 (1/2) 20 (1/20) (List.replicate 5 0)
          = some r ∧
        r.t = arange (1/20) ∧ r.x.length = (arange (1/20)).length ∧
        r.v.length = (arange (1/20)).length ∧ r.a.length = (arange (1/20)).length ∧
        r.E_cinetica.length = (arange (1/20)).length ∧
        r.E_potencial.length = (arange (1/20)).length ∧
        r.E_total.length = (arange (1/20)).length) :=
  ⟨by norm_num, by rw [arange_length, nSamples_one_div_20]; simp,
    by rw [arange_length, nSamples_one_div_20]; simp,
    series_lengths (fun _ => 1) 0 (fun _ _ => 0) 1 (1/2) 20 (1/20) 1 0 ⟨0, 0⟩
      (List.replicate 5 0) (by norm_num) (by rw [arange_length, nSamples_one_div_20]; simp)
      (by rw [arange_length, nSamples_one_div_20]; simp)⟩

/-- C7 counterexample: at the valid parameters m = 1, c = 1/2, k = 20 and
T = 0.005 the grid has a single sample, the all-zero record is [0], and
solve returns None (np.gradient raises on a length-1 array inside the
try), not the all-zero response the claim asserts for every valid
(m, c, k, T). -/
theorem resolver_sdof_zero_input_cx :
    resolver_sdof solve_ivp_model 1 (1/2) 20 (1/200) [0] = none := by
  rw [resolver_sdof_eq, arange_one_div_200]
  simp [solve_ivp_model, integrateAux, Except.bind, Except.map, postprocesar, gradient]

/-- C7 (amended): zero-input/zero-output: for every valid (m, c, k, T)
whose grid has at least two samples, solving with the aligned all-zero
ground-acceleration record returns the response whose displacement,
velocity, acceleration and all three energy series are identically zero
on the grid (with fewer than two samples the run instead fails, because
np.gradient rejects arrays shorter than 2). -/
theorem resolver_sdof_zero_input (m c k T : ℚ) (hm : 0 < m) (hc : 0 ≤ c) (hk : 0 < k)
    (h2 : 2 ≤ (arange T).length) :
    resolver_sdof solve_ivp_model m c k T (List.replicate (arange T).length 0)
      = some ⟨arange T, List.replicate (arange T).length 0, List.replicate (arange T).length 0,
          List.replicate (arange T).length 0, List.replicate (arange T).length 0,
          List.replicate (arange T).length 0, List.replicate (arange T).length 0⟩ := by
  have hF : ((List.replicate (arange T).length (0:ℚ)).map (fun ag => -m * ag))
      = List.replicate (arange T).length 0 := by
    simp [List.map_replicate]
  have hz : ∀ ti, modelo_sdof m c k (arange T) (List.replicate (arange T).length 0) ti (0, 0)
      = .ok (0, 0) := by
    intro ti
    apply modelo_sdof_zero
    · simp
    · omega
    · exact fun y hy => List.eq_of_mem_replicate hy
  rw [resolver_sdof_eq, hF]
  cases hts : arange T with
  | nil => rw [hts] at h2; simp at h2
  | cons t0 rest =>
    rw [hts] at hz h2
    rw [solve_ivp_model_zero _ hz (0, T) t0 rest]
    simp only [Except.bind]
    rw [show ((t0 :: rest).length = rest.length + 1) from rfl,
      postprocesar_replicate_zero m k dt (t0 :: rest) (rest.length + 1) (by simpa using h2)]
    rfl

/-- C7 witness: T = 0.05, m = 1, c = 1/2, k = 20, five-sample zero
record. -/
theorem resolver_sdof_zero_input_w :
    (0 : ℚ) < 1 ∧ (0 : ℚ) ≤ 1/2 ∧ (0 : ℚ) < 20 ∧ 2 ≤ (arange (1/20)).length ∧
    resolver_sdof solve_ivp_model 1 (1/2) 20 (1/20) (List.replicate (arange (1/20)).length 0)
      = some ⟨arange (1/20),
          List.replicate (arange (1/20)).length 0, List.replicate (arange (1/20)).length 0,
          List.replicate (arange (1/20)).length 0, List.replicate (arange (1/20)).length 0,
          List.replicate (arange (1/20)).length 0, List.replicate (arange (1/20)).length 0⟩ :=
  ⟨by norm_num, by norm_num, by norm_num, by rw [arange_length, nSamples_one_div_20]; simp,
    resolver_sdof_zero_input 1 (1/2) 20 (1/20) (by norm_num) (by norm_num) (by norm_num)
      (by rw [arange_length, nSamples_one_div_20]; simp)⟩

/-- C8: resolver_sdof is pure: its result does not depend on the numpy
global random state (the only global mutable state of the core), which it
also leaves untouched, so an immediate second call with identical
arguments — and in general any two calls with identical arguments —
return identical StructuralResponse values. -/
theorem resolver_sdof_pure (svp : Ivp) (m c k T : ℚ) (acc : List ℚ) (rs rs' : RandState) :
    (resolver_sdof_run svp m c k T acc rs).1 = (resolver_sdof_run svp m c k T acc rs').1 ∧
    (resolver_sdof_run svp m c k T acc ((resolver_sdof_run svp m c k T acc rs).2)).1
      = (resolver_sdof_run svp m c k T acc rs).1 :=
  ⟨rfl, rfl⟩

/-- C9: if the ground-acceleration record is not aligned with the grid
built from T (its length differs from the length of arange(0, T, 0.01)),
the run yields None: with at least two grid points the first interpolation
np.interp raises on the length mismatch inside the right-hand side; with
fewer than two grid points np.gradient raises; either way the try/except
returns the failure result and no partial arrays. -/
theorem resolver_sdof_misaligned (m c k T : ℚ) (acc : List ℚ)
    (hlen : acc.length ≠ (arange T).length) :
    resolver_sdof solve_ivp_model m c k T acc = none := by
  rw [resolver_sdof_eq]
  cases hts : arange T with
  | nil =>
    simp [solve_ivp_model, Except.bind, postprocesar, gradient, Except.map]
  | cons t0 rest =>
    cases rest with
    | nil =>
      simp [solve_ivp_model, integrateAux, Except.bind, Except.map, postprocesar, gradient]
    | cons t1 rest2 =>
      have hm : ∀ ti y, modelo_sdof m c k (t0 :: t1 :: rest2) (acc.map (fun ag => -m * ag)) ti y
          = .error "fp and xp are not of the same length" := by
        intro ti y
        apply modelo_sdof_err
        rw [List.length_map]
        rw [hts] at hlen
        exact fun h => hlen h.symm
      simp only [solve_ivp_model]
      rw [integrateAux_err _ _ hm (0, 0) t0 t1 rest2]
      rfl

/-- C9 witness: a one-sample record against the five-sample grid of
T = 0.05. -/
theorem resolver_sdof_misaligned_w :
    ([0] : List ℚ).length ≠ (arange (1/20)).length ∧
    resolver_sdof solve_ivp_model 1 (1/2) 20 (1/20) [0] = none :=
  ⟨by rw [arange_length, nSamples_one_div_20]; simp,
    resolver_sdof_misaligned 1 (1/2) 20 (1/20) [0]
      (by rw [arange_length, nSamples_one_div_20]; simp)⟩

end Terremoto
